import Mathlib

/-!
Verification development for the Micro-Entrepreneur Growth App frontend.

The definitions below are a shallow embedding of the TypeScript sources:
`src/components/CustomersPage.tsx`, `src/services/api.ts`,
`src/components/DigitalPresenceBuilder.tsx`, `src/components/ProfilePage.tsx`
and the customer-detail page.  Strings are modelled as Lean `String`/`List Char`;
JavaScript regular-expression matching for the concrete patterns appearing in
the code is modelled operationally (leftmost match, greedy quantifier).
-/

/-- Character class of the regular-expression escape `\s` (which is also the
set removed by `String.prototype.trim`), covering the ECMAScript WhiteSpace and
LineTerminator code points. -/
def isSpaceChar (c : Char) : Bool :=
  c = ' ' || c = '\t' || c = '\n' || c = '\r' || c = '\x0b' || c = '\x0c' ||
  c.toNat = 0xa0 || c.toNat = 0x1680 || (0x2000 ≤ c.toNat && c.toNat ≤ 0x200a) ||
  c.toNat = 0x2028 || c.toNat = 0x2029 || c.toNat = 0x202f || c.toNat = 0x205f ||
  c.toNat = 0x3000 || c.toNat = 0xfeff

/-- Character class `[\d\s-]` used by the phone-number pattern
`/(\+?[\d\s-]{10,})/` in the contact handlers. -/
def isClassChar (c : Char) : Bool :=
  c.isDigit || isSpaceChar c || c = '-'

/-- Model of trimming trailing whitespace from a character list. -/
def trimEnd (l : List Char) : List Char :=
  (l.reverse.dropWhile isSpaceChar).reverse

/-- Model of `String.prototype.trim` on a character list. -/
def trimList (l : List Char) : List Char :=
  trimEnd (l.dropWhile isSpaceChar)

/-- Model of `.replace(/[\s-]/g, '')`: delete every whitespace and hyphen. -/
def stripSpaceDash (l : List Char) : List Char :=
  l.filter (fun ch => !(isSpaceChar ch || ch = '-'))

/-- Helper for substring search: does `hay` start with `needle`? -/
def prefixAt (needle hay : List Char) : Bool :=
  match needle, hay with
  | [], _ => true
  | _ :: _, [] => false
  | n :: ns, h :: hs => n = h && prefixAt ns hs

/-- Model of `String.prototype.includes`: `needle` occurs contiguously in `hay`. -/
def includesList (hay needle : List Char) : Bool :=
  match hay with
  | [] => needle.isEmpty
  | _ :: t => prefixAt needle hay || includesList t needle

/-- Attempted match of the pattern `\+?[\d\s-]{10,}` anchored at the head of
`l`, with JavaScript semantics: the greedy optional `\+?` is tried first, the
greedy counted class then consumes the maximal run; on failure after a consumed
`'+'` the engine retries with `\+?` empty, which fails since `'+'` is not in
the class.  Returns the matched characters. -/
def matchAt (l : List Char) : Option (List Char) :=
  match l with
  | [] => none
  | c :: rest =>
    if c = '+' then
      let run := rest.takeWhile isClassChar
      if 10 ≤ run.length then some ('+' :: run) else none
    else
      let run := (c :: rest).takeWhile isClassChar
      if 10 ≤ run.length then some run else none

/-- Model of `str.match(/(\+?[\d\s-]{10,})/)`: the leftmost match, scanning
start positions left to right. -/
def firstPhoneMatch : List Char → Option (List Char)
  | [] => none
  | c :: rest =>
    match matchAt (c :: rest) with
    | some m => some m
    | none => firstPhoneMatch rest

/-- Does the contact text contain a phone-pattern match anywhere? -/
def hasPhoneMatch (l : List Char) : Bool :=
  (firstPhoneMatch l).isSome

/-- A full (anchored, whole-string) match of `\+?[\d\s-]{10,}`: an optional
leading `'+'` followed by at least ten characters of the class `[\d\s-]`. -/
def isPhonePatternMatch (t : List Char) : Bool :=
  if t.head? = some '+' then t.tail.all isClassChar && decide (10 ≤ t.tail.length)
  else !t.isEmpty && t.all isClassChar && decide (10 ≤ t.length)

/-- Unreserved characters of `encodeURIComponent`. -/
def isUriUnreserved (c : Char) : Bool :=
  c.isAlphanum || c = '-' || c = '_' || c = '.' || c = '!' || c = '~' ||
  c = '*' || c = '\x27' || c = '(' || c = ')'

/-- UTF-8 bytes of a character. -/
def utf8Bytes (c : Char) : List Nat :=
  let n := c.toNat
  if n < 0x80 then [n]
  else if n < 0x800 then [0xc0 + n / 64, 0x80 + n % 64]
  else if n < 0x10000 then [0xe0 + n / 4096, 0x80 + n / 64 % 64, 0x80 + n % 64]
  else [0xf0 + n / 262144, 0x80 + n / 4096 % 64, 0x80 + n / 64 % 64, 0x80 + n % 64]

/-- Uppercase hexadecimal digit. -/
def hexDigit (n : Nat) : Char :=
  if n < 10 then Char.ofNat ('0'.toNat + n) else Char.ofNat ('A'.toNat + n - 10)

/-- Percent-encoding of one byte. -/
def percentByte (b : Nat) : List Char :=
  ['%', hexDigit (b / 16), hexDigit (b % 16)]

/-- Model of JavaScript `encodeURIComponent`. -/
def encodeURIComponent (s : String) : String :=
  String.mk (s.toList.flatMap fun c =>
    if isUriUnreserved c then [c] else (utf8Bytes c).flatMap percentByte)

/-- Model of JavaScript `parseInt(s)` in base 10: `none` models `NaN`. -/
def jsParseInt (s : String) : Option Int :=
  let l := s.toList.dropWhile isSpaceChar
  match l with
  | '-' :: r =>
    let ds := r.takeWhile Char.isDigit
    if ds.isEmpty then none else some (-(Int.ofNat (digitsToNat ds)))
  | '+' :: r =>
    let ds := r.takeWhile Char.isDigit
    if ds.isEmpty then none else some (Int.ofNat (digitsToNat ds))
  | r =>
    let ds := r.takeWhile Char.isDigit
    if ds.isEmpty then none else some (Int.ofNat (digitsToNat ds))
where
  digitsToNat (l : List Char) : Nat :=
    l.foldl (fun n c => 10 * n + (c.toNat - '0'.toNat)) 0

/-- Model of the idiom `parseInt(userId) || 1`: `NaN` and `0` are falsy. -/
def jsParseIntOr1 (s : String) : Int :=
  match jsParseInt s with
  | none => 1
  | some 0 => 1
  | some n => n

/-- Customer record (interface `Customer` in `CustomersPage.tsx`). -/
structure Customer where
  id : Nat
  name : String
  contact_info : String
  notes : Option String
  last_contacted : Option String
  user_id : Int
deriving DecidableEq, Repr

/-- Observable effect of a contact-dispatch handler: assignment to
`window.location.href`, a `window.open(..., '_blank')`, a clipboard write
followed by an `alert`, or a bare `alert`. -/
inductive ContactAction where
  | navigate (uri : String)
  | openWindow (uri : String)
  | clipboardAlert (copied : String) (message : String)
  | alertOnly (message : String)
deriving DecidableEq, Repr

/-- Is the action a navigation to a `mailto:` URI? -/
def isMailtoNav : ContactAction → Bool
  | ContactAction.navigate u => prefixAt "mailto:".toList u.toList
  | _ => false

namespace CustomersPage

/-- Embedding of `handleCall` (`CustomersPage.tsx` lines 63-87). -/
def handleCall (c : Customer) : ContactAction :=
  let info := trimList c.contact_info.toList
  match firstPhoneMatch info with
  | some m =>
    let phoneNumber := trimList m
    ContactAction.navigate ("tel:" ++ String.mk (stripSpaceDash phoneNumber))
  | none =>
    if info.contains '@' then
      let subject := "Following up - " ++ c.name
      let body := "Dear " ++ c.name ++ ",\n\nI hope this email finds you well.\n\nI\x27m reaching out to follow up on our previous conversation.\n\nBest regards,\n[Your Name]"
      ContactAction.navigate ("mailto:" ++ String.mk info ++ "?subject=" ++
        encodeURIComponent subject ++ "&body=" ++ encodeURIComponent body)
    else
      ContactAction.clipboardAlert (String.mk info) "Contact copied to clipboard"

/-- Embedding of the WhatsApp number formatting inside `handleWhatsApp`
(`CustomersPage.tsx` lines 100-102): keep digits and `'+'` when the number
starts with `'+'`, otherwise keep digits and prepend `"+91"`. -/
def waFormatNumber (p : List Char) : List Char :=
  if p.head? = some '+' then p.filter (fun ch => ch.isDigit || ch = '+')
  else '+' :: '9' :: '1' :: p.filter Char.isDigit

/-- Embedding of `handleWhatsApp` (`CustomersPage.tsx` lines 89-115). -/
def handleWhatsApp (c : Customer) : ContactAction :=
  let info := trimList c.contact_info.toList
  match firstPhoneMatch info with
  | some m =>
    let phoneNumber := trimList m
    let formattedNumber := String.mk (waFormatNumber phoneNumber)
    let message := "Hello " ++ c.name ++ "! I\x27m reaching out to discuss how we can help with your needs. Would you have some time to chat?"
    ContactAction.openWindow ("https://wa.me/" ++ formattedNumber ++ "?text=" ++
      encodeURIComponent message)
  | none => ContactAction.alertOnly "Invalid phone number for WhatsApp"

/-- Embedding of `handleSMS` (`CustomersPage.tsx` lines 161-181). -/
def handleSMS (c : Customer) : ContactAction :=
  let info := trimList c.contact_info.toList
  match firstPhoneMatch info with
  | some m =>
    let phoneNumber := trimList m
    let formattedNumber := String.mk (stripSpaceDash phoneNumber)
    let message := encodeURIComponent ("Hi " ++ c.name ++ ", this is a follow-up regarding our previous conversation. Please let me know a good time to connect. Thanks!")
    ContactAction.openWindow ("sms:" ++ formattedNumber ++ "?body=" ++ message)
  | none => ContactAction.alertOnly "Invalid phone number for SMS"

/-- ASCII model of `String.prototype.toLowerCase`. -/
def toLowerStr (s : String) : String :=
  String.mk (s.toList.map Char.toLower)

/-- Predicate of the `filteredCustomers` filter (`CustomersPage.tsx`
lines 211-214): lowercased name or contact info includes the lowercased
search term. -/
def matchesSearch (searchTerm : String) (c : Customer) : Bool :=
  includesList (toLowerStr c.name).toList (toLowerStr searchTerm).toList ||
  includesList (toLowerStr c.contact_info).toList (toLowerStr searchTerm).toList

/-- Embedding of `filteredCustomers` (`CustomersPage.tsx` lines 211-214). -/
def filteredCustomers (customers : List Customer) (searchTerm : String) : List Customer :=
  customers.filter (matchesSearch searchTerm)

/-- State of the new-customer form (`newCustomer` in `CustomersPage.tsx`). -/
structure NewCustomerForm where
  name : String
  contact_info : String
  notes : String
deriving DecidableEq, Repr

/-- Payload of `apiService.createCustomer` (interface `CustomerData`). -/
structure CustomerData where
  name : String
  contact_info : String
  notes : String
  user_id : Int
deriving DecidableEq, Repr

/-- Observable outcome of running `handleAddCustomer` once: the request body
sent to `createCustomer` (`none` when no request was issued), and the
resulting component state. -/
structure AddCustomerOutcome where
  request : Option CustomerData
  customers : List Customer
  error : String
  formAfter : NewCustomerForm
  showAddFormAfter : Bool
deriving Repr

/-- Embedding of `handleAddCustomer` (`CustomersPage.tsx` lines 216-244).
The result of the awaited `createCustomer` call is passed in as `api`
(`Except.error` models a thrown/rejected request). -/
def handleAddCustomer (userId : String) (form : NewCustomerForm)
    (customers : List Customer) (api : Except String Customer) : AddCustomerOutcome :=
  if form.name = "" || form.contact_info = "" then
    { request := none
      customers := customers
      error := "Name and contact info are required"
      formAfter := form
      showAddFormAfter := true }
  else
    let customerData : CustomerData :=
      { name := form.name
        contact_info := form.contact_info
        notes := form.notes
        user_id := jsParseIntOr1 userId }
    match api with
    | Except.ok created =>
      { request := some customerData
        customers := customers ++ [created]
        error := ""
        formAfter := { name := "", contact_info := "", notes := "" }
        showAddFormAfter := false }
    | Except.error _ =>
      { request := some customerData
        customers := customers
        error := "Failed to create customer"
        formAfter := form
        showAddFormAfter := true }

end CustomersPage

/-- An HTTP request issued through `fetch` (URL and HTTP verb; JSON request
bodies carry no information relevant to the properties proved here and are
kept as the typed parameters of each method). -/
structure Request where
  url : String
  verb : String
deriving DecidableEq, Repr

/-- An HTTP response as observed by the client code: status code, status text
and the response body text. -/
structure HttpResponse where
  status : Nat
  statusText : String
  body : String
deriving DecidableEq, Repr

/-- The `Response.ok` flag of the Fetch API: status in the range 200-299. -/
def HttpResponse.ok (r : HttpResponse) : Bool :=
  200 ≤ r.status && r.status ≤ 299

/-- Outcome of one `ApiService` method call: the fetches it issued, in order,
and either the response body (the success value, whose JSON decoding is
abstracted as the body text) or the message of the thrown `Error`. -/
structure MethodOutcome where
  requests : List Request
  result : Except String String
deriving Repr

/-- The error message template shared by every `ApiService` method:
`` `<prefix>: ${response.status} ${response.statusText} - ${errorText}` ``. -/
def errorMessage (failMsg : String) (resp : HttpResponse) : String :=
  failMsg ++ ": " ++ Nat.repr resp.status ++ " " ++ resp.statusText ++ " - " ++ resp.body

/-- The single-fetch shape every `ApiService` method instantiates: one
`fetch`, then throw on `!response.ok`, else return the decoded body. -/
def apiFetch (req : Request) (failMsg : String) (resp : HttpResponse) : MethodOutcome :=
  { requests := [req]
    result :=
      if resp.ok then Except.ok resp.body
      else Except.error (errorMessage failMsg resp) }

/-- `API_BASE_URL` from `src/services/api.ts`. -/
def API_BASE_URL : String := "http://localhost:8000"

/-- Login payload (interface `LoginData`). -/
structure LoginData where
  user_id : String
  password : String
deriving DecidableEq, Repr

/-- Signup payload (interface `SignupData`); optional fields elided, they do
not affect the request URL or the error path. -/
structure SignupData where
  name : String
  user_id : String
  password : String
deriving DecidableEq, Repr

namespace ApiService

/-- Embedding of `ApiService.login` (`api.ts` lines 31-52). -/
def login (_data : LoginData) : HttpResponse → MethodOutcome :=
  apiFetch { url := API_BASE_URL ++ "/auth/login", verb := "POST" } "Login failed"

/-- Embedding of `ApiService.getCustomerInteractions` (`api.ts` lines 54-65). -/
def getCustomerInteractions (customer_id : Nat) : HttpResponse → MethodOutcome :=
  apiFetch { url := API_BASE_URL ++ "/customers/" ++ Nat.repr customer_id ++ "/interactions", verb := "GET" }
    "Failed to fetch interactions"

/-- Embedding of `ApiService.getCustomerDetailedInteractions` (`api.ts` lines 67-78). -/
def getCustomerDetailedInteractions (customer_id user_id : Nat) : HttpResponse → MethodOutcome :=
  apiFetch { url := API_BASE_URL ++ "/interactions/?customer_id=" ++ Nat.repr customer_id ++ "&user_id=" ++ Nat.repr user_id, verb := "GET" }
    "Failed to fetch detailed interactions"

/-- Embedding of `ApiService.createCustomerInteraction` (`api.ts` lines 80-99);
the JSON payload is opaque here. -/
def createCustomerInteraction (_data : String) : HttpResponse → MethodOutcome :=
  apiFetch { url := API_BASE_URL ++ "/interactions/", verb := "POST" }
    "Failed to create interaction"

/-- Embedding of `ApiService.updateCustomerInteraction` (`api.ts` lines 101-120). -/
def updateCustomerInteraction (interaction_id : Nat) (_data : String) : HttpResponse → MethodOutcome :=
  apiFetch { url := API_BASE_URL ++ "/interactions/" ++ Nat.repr interaction_id, verb := "PUT" }
    "Failed to update interaction"

/-- Embedding of `ApiService.deleteCustomerInteraction` (`api.ts` lines 122-137). -/
def deleteCustomerInteraction (interaction_id : Nat) : HttpResponse → MethodOutcome :=
  apiFetch { url := API_BASE_URL ++ "/interactions/" ++ Nat.repr interaction_id, verb := "DELETE" }
    "Failed to delete interaction"

/-- Embedding of `ApiService.getUpcomingFollowups` (`api.ts` lines 139-152);
`days` defaults to 7 at call sites. -/
def getUpcomingFollowups (user_id : Nat) (days : Nat) : HttpResponse → MethodOutcome :=
  apiFetch { url := API_BASE_URL ++ "/interactions/upcoming-followups?user_id=" ++ Nat.repr user_id ++ "&days=" ++ Nat.repr days, verb := "GET" }
    "Failed to fetch followups"

/-- Embedding of `ApiService.getCustomer` (`api.ts` lines 154-165). -/
def getCustomer (customer_id : Nat) : HttpResponse → MethodOutcome :=
  apiFetch { url := API_BASE_URL ++ "/customers/" ++ Nat.repr customer_id, verb := "GET" }
    "Failed to fetch customer"

/-- Embedding of `ApiService.contactCustomer` (`api.ts` lines 167-182). -/
def contactCustomer (customer_id : Nat) (_data : String) : HttpResponse → MethodOutcome :=
  apiFetch { url := API_BASE_URL ++ "/customers/" ++ Nat.repr customer_id ++ "/contact", verb := "POST" }
    "Failed to contact customer"

/-- Embedding of `ApiService.getReferralLink` (`api.ts` lines 184-195). -/
def getReferralLink (user_id : Nat) : HttpResponse → MethodOutcome :=
  apiFetch { url := API_BASE_URL ++ "/referrals/link/" ++ Nat.repr user_id, verb := "GET" }
    "Failed to fetch referral link"

/-- Embedding of `ApiService.signup` (`api.ts` lines 197-219). -/
def signup (_data : SignupData) : HttpResponse → MethodOutcome :=
  apiFetch { url := API_BASE_URL ++ "/auth/signup", verb := "POST" } "Signup failed"

/-- Embedding of `ApiService.getProfile` (`api.ts` lines 221-234). -/
def getProfile (user_id : String) : HttpResponse → MethodOutcome :=
  apiFetch { url := API_BASE_URL ++ "/auth/profile?current_user_id=" ++ user_id, verb := "GET" }
    "Failed to fetch profile"

/-- Embedding of `ApiService.updateProfile` (`api.ts` lines 236-255). -/
def updateProfile (user_id : String) (_profileData : String) : HttpResponse → MethodOutcome :=
  apiFetch { url := API_BASE_URL ++ "/auth/profile?current_user_id=" ++ user_id, verb := "PUT" }
    "Failed to update profile"

/-- Embedding of `ApiService.uploadProfileImage` (`api.ts` lines 257-273). -/
def uploadProfileImage (user_id : String) (_formData : String) : HttpResponse → MethodOutcome :=
  apiFetch { url := API_BASE_URL ++ "/auth/profile/upload-image?current_user_id=" ++ user_id, verb := "POST" }
    "Failed to upload image"

/-- Embedding of `ApiService.getBusinessTypes` (`api.ts` lines 275-288). -/
def getBusinessTypes : HttpResponse → MethodOutcome :=
  apiFetch { url := API_BASE_URL ++ "/auth/business-types", verb := "GET" }
    "Failed to fetch business types"

/-- Embedding of `ApiService.createCustomer` (`api.ts` lines 291-310). -/
def createCustomer (_data : CustomersPage.CustomerData) : HttpResponse → MethodOutcome :=
  apiFetch { url := API_BASE_URL ++ "/customers/", verb := "POST" }
    "Failed to create customer"

/-- Embedding of `ApiService.getCustomers` (`api.ts` lines 312-325). -/
def getCustomers (user_id : Nat) : HttpResponse → MethodOutcome :=
  apiFetch { url := API_BASE_URL ++ "/customers/?user_id=" ++ Nat.repr user_id, verb := "GET" }
    "Failed to fetch customers"

/-- Embedding of `ApiService.searchCustomers` (`api.ts` lines 327-340). -/
def searchCustomers (user_id : Nat) (query : String) : HttpResponse → MethodOutcome :=
  apiFetch { url := API_BASE_URL ++ "/customers/search?user_id=" ++ Nat.repr user_id ++ "&query=" ++ query, verb := "GET" }
    "Failed to search customers"

/-- Embedding of `ApiService.getReferrals` (`api.ts` lines 343-356). -/
def getReferrals (user_id : Nat) : HttpResponse → MethodOutcome :=
  apiFetch { url := API_BASE_URL ++ "/referrals/?user_id=" ++ Nat.repr user_id, verb := "GET" }
    "Failed to fetch referrals"

/-- Embedding of `ApiService.getReferralStats` (`api.ts` lines 358-371). -/
def getReferralStats (user_id : Nat) : HttpResponse → MethodOutcome :=
  apiFetch { url := API_BASE_URL ++ "/referrals/stats?user_id=" ++ Nat.repr user_id, verb := "GET" }
    "Failed to fetch referral stats"

/-- Embedding of `ApiService.getRewards` (`api.ts` lines 373-386). -/
def getRewards (user_id : Nat) : HttpResponse → MethodOutcome :=
  apiFetch { url := API_BASE_URL ++ "/referrals/rewards?user_id=" ++ Nat.repr user_id, verb := "GET" }
    "Failed to fetch rewards"

/-- Embedding of `ApiService.getDashboardMetrics` (`api.ts` lines 389-402). -/
def getDashboardMetrics (user_id : Nat) : HttpResponse → MethodOutcome :=
  apiFetch { url := API_BASE_URL ++ "/dashboard?user_id=" ++ Nat.repr user_id, verb := "GET" }
    "Failed to fetch dashboard metrics"

/-- Embedding of `ApiService.getReports` (`api.ts` lines 404-417). -/
def getReports (user_id : Nat) : HttpResponse → MethodOutcome :=
  apiFetch { url := API_BASE_URL ++ "/dashboard/reports?user_id=" ++ Nat.repr user_id, verb := "GET" }
    "Failed to fetch reports"

/-- Embedding of `ApiService.sendMessage` (`api.ts` lines 420-439). -/
def sendMessage (_messageData : String) : HttpResponse → MethodOutcome :=
  apiFetch { url := API_BASE_URL ++ "/messaging/send", verb := "POST" }
    "Failed to send message"

/-- Embedding of `ApiService.getMessageTemplates` (`api.ts` lines 441-454). -/
def getMessageTemplates : HttpResponse → MethodOutcome :=
  apiFetch { url := API_BASE_URL ++ "/messaging/message-templates", verb := "GET" }
    "Failed to fetch message templates"

/-- Embedding of `ApiService.getConversation` (`api.ts` lines 456-469). -/
def getConversation (customer_id user_id : Nat) : HttpResponse → MethodOutcome :=
  apiFetch { url := API_BASE_URL ++ "/messaging/conversations/" ++ Nat.repr customer_id ++ "?user_id=" ++ Nat.repr user_id, verb := "GET" }
    "Failed to fetch conversation"

/-- Embedding of `ApiService.getAIAssist` (`api.ts` lines 472-491). -/
def getAIAssist (_prompt : String) (_context : Option String) : HttpResponse → MethodOutcome :=
  apiFetch { url := API_BASE_URL ++ "/ai/assist", verb := "POST" }
    "Failed to get AI assistance"

/-- Embedding of `ApiService.generatePersonalizedMessage` (`api.ts` lines 493-512). -/
def generatePersonalizedMessage (_customer_id _user_id : Nat) (_message_type : String) :
    HttpResponse → MethodOutcome :=
  apiFetch { url := API_BASE_URL ++ "/ai/generate-message", verb := "POST" }
    "Failed to generate message"

/-- Embedding of `ApiService.getCustomerInsights` (`api.ts` lines 514-533). -/
def getCustomerInsights (_customer_id _user_id : Nat) : HttpResponse → MethodOutcome :=
  apiFetch { url := API_BASE_URL ++ "/ai/customer-insights", verb := "POST" }
    "Failed to get customer insights"

/-- Embedding of `ApiService.setupAutoResponses` (`api.ts` lines 535-554). -/
def setupAutoResponses (_user_id : Nat) (_responses : List (String × String)) :
    HttpResponse → MethodOutcome :=
  apiFetch { url := API_BASE_URL ++ "/ai/auto-responses", verb := "POST" }
    "Failed to setup auto-responses"

/-- Embedding of `ApiService.generateMarketingContent` (`api.ts` lines 557-576). -/
def generateMarketingContent (_data : String) : HttpResponse → MethodOutcome :=
  apiFetch { url := API_BASE_URL ++ "/ai/marketing-content", verb := "POST" }
    "Failed to generate marketing content"

/-- Embedding of `ApiService.generateAIImage` (`api.ts` lines 579-601). -/
def generateAIImage (_prompt : String) : HttpResponse → MethodOutcome :=
  apiFetch { url := API_BASE_URL ++ "/ai/generate-image", verb := "POST" }
    "Failed to generate image"

/-- Embedding of `ApiService.getWebsiteInfo` (`api.ts` lines 604-617). -/
def getWebsiteInfo (user_id : Nat) : HttpResponse → MethodOutcome :=
  apiFetch { url := API_BASE_URL ++ "/digital-presence/website/" ++ Nat.repr user_id, verb := "GET" }
    "Failed to fetch website info"

/-- Embedding of `ApiService.getWebsiteTemplates` (`api.ts` lines 619-632). -/
def getWebsiteTemplates : HttpResponse → MethodOutcome :=
  apiFetch { url := API_BASE_URL ++ "/digital-presence/templates", verb := "GET" }
    "Failed to fetch website templates"

/-- Embedding of `ApiService.applyWebsiteTemplate` (`api.ts` lines 634-653). -/
def applyWebsiteTemplate (user_id : Nat) (_template_id : String) : HttpResponse → MethodOutcome :=
  apiFetch { url := API_BASE_URL ++ "/digital-presence/website/" ++ Nat.repr user_id ++ "/template", verb := "POST" }
    "Failed to apply template"

/-- Embedding of `ApiService.generateWebsiteHtml` (`api.ts` lines 655-668). -/
def generateWebsiteHtml (user_id : Nat) (template_id : String) : HttpResponse → MethodOutcome :=
  apiFetch { url := API_BASE_URL ++ "/digital-presence/website/" ++ Nat.repr user_id ++ "/generate/" ++ template_id, verb := "GET" }
    "Failed to generate website HTML"

/-- Embedding of `ApiService.previewWebsite` (`api.ts` lines 670-683); on
success it returns `await response.text()`, the raw body, unchanged. -/
def previewWebsite (user_id : Nat) (template_id : String) : HttpResponse → MethodOutcome :=
  apiFetch { url := API_BASE_URL ++ "/digital-presence/website/" ++ Nat.repr user_id ++ "/preview/" ++ template_id, verb := "GET" }
    "Failed to fetch website preview"

/-- Embedding of `ApiService.getSocialProfiles` (`api.ts` lines 685-698). -/
def getSocialProfiles (user_id : Nat) : HttpResponse → MethodOutcome :=
  apiFetch { url := API_BASE_URL ++ "/digital-presence/social-profiles/" ++ Nat.repr user_id, verb := "GET" }
    "Failed to fetch social profiles"

/-- Embedding of `ApiService.getDigitalPresenceAnalytics` (`api.ts` lines 700-713). -/
def getDigitalPresenceAnalytics (user_id : Nat) : HttpResponse → MethodOutcome :=
  apiFetch { url := API_BASE_URL ++ "/digital-presence/analytics/" ++ Nat.repr user_id, verb := "GET" }
    "Failed to fetch digital presence analytics"

end ApiService

/-- The user record read from `localStorage.getItem('user')` and `JSON.parse`;
the lookup and parse are abstracted as an optional record, and `id = 0` models
a falsy `user.id`. -/
structure StoredUser where
  id : Nat
deriving DecidableEq, Repr

namespace DigitalPresenceBuilder

/-- Observable outcome of `handlePreviewWebsite`: the HTML written into the
popup window via `document.write` (if any) and the error message set via
`setError` (if any). -/
structure PreviewOutcome where
  written : Option String
  errorSet : Option String
deriving DecidableEq, Repr

/-- Embedding of `handlePreviewWebsite` (`DigitalPresenceBuilder.tsx` lines
87-116).  `resp` is the HTTP response of the single `previewWebsite` fetch;
`windowOpens` models whether `window.open('', '_blank')` returned a window
(popup blockers can make it `null`). -/
def handlePreviewWebsite (storedUser : Option StoredUser) (selectedTemplate : String)
    (resp : HttpResponse) (windowOpens : Bool) : PreviewOutcome :=
  match storedUser with
  | none => { written := none, errorSet := some "No user data found. Please log in again." }
  | some u =>
    if u.id = 0 then
      { written := none, errorSet := some "Invalid user data. Please log in again." }
    else
      match (ApiService.previewWebsite u.id selectedTemplate resp).result with
      | Except.ok html =>
        if html = "" then { written := none, errorSet := none }
        else if windowOpens then { written := some html, errorSet := none }
        else { written := none, errorSet := none }
      | Except.error e =>
        { written := none, errorSet := some ("Failed to preview website: " ++ e) }

end DigitalPresenceBuilder

/-- A network event as seen from the browser: an HTTP request starting or the
awaited response arriving.  The string names the `ApiService` method. -/
inductive NetEvent where
  | start (endpointName : String)
  | finish (endpointName : String)
deriving DecidableEq, Repr

/-- The trace of one `await apiService.<m>(...)`: the request starts and, since
the call is awaited, completes (successfully or with a rejection) before the
handler continues. -/
def awaitCall (m : String) : List NetEvent :=
  [NetEvent.start m, NetEvent.finish m]

/-- Number of outstanding (started, not yet finished) requests after `t`. -/
def outstandingAfter (t : List NetEvent) : Nat :=
  t.foldl (fun n e => match e with
    | NetEvent.start _ => n + 1
    | NetEvent.finish _ => n - 1) 0

/-- A trace is sequential when no prefix of it ever has more than one
outstanding request. -/
def seqTraceOk (t : List NetEvent) : Bool :=
  t.inits.all (fun p => decide (outstandingAfter p ≤ 1))

namespace CustomersPage

/-- Network trace of `fetchCustomers` inside the `useEffect` of
`CustomersPage.tsx` (lines 43-61): early return without `userId`, otherwise a
single awaited `getCustomers`. -/
def fetchCustomersTrace (hasUserId : Bool) : List NetEvent :=
  if hasUserId then awaitCall "getCustomers" else []

/-- Network trace of `openDetails` (`CustomersPage.tsx` lines 185-194). -/
def openDetailsTrace : List NetEvent :=
  awaitCall "getCustomerInteractions"

/-- Network trace of `handleActivateAI` (`CustomersPage.tsx` lines 196-209). -/
def handleActivateAITrace : List NetEvent :=
  awaitCall "setupAutoResponses"

/-- Network trace of `handleAddCustomer` (`CustomersPage.tsx` lines 216-244):
no request when the required fields are missing. -/
def handleAddCustomerTrace (fieldsPresent : Bool) : List NetEvent :=
  if fieldsPresent then awaitCall "createCustomer" else []

end CustomersPage

namespace CustomerDetailPage

/-- Network trace of `fetchData` inside the `useEffect` of the customer-detail
page (`src/unnamed/part_000` lines 117-153): with ids present, an awaited
`getCustomer`, then (if it did not throw) an awaited
`getCustomerInteractions`, then (if that did not throw) an awaited
`getCustomerDetailedInteractions`; each request is awaited to completion
before the next is issued. -/
def fetchDataTrace (hasIds customerOk interactionsOk : Bool) : List NetEvent :=
  if hasIds then
    awaitCall "getCustomer" ++
      (if customerOk then
        awaitCall "getCustomerInteractions" ++
          (if interactionsOk then awaitCall "getCustomerDetailedInteractions" else [])
      else [])
  else []

/-- Network trace of `fetchAIInsights` (`src/unnamed/part_000` lines 274-294). -/
def fetchAIInsightsTrace (ready : Bool) : List NetEvent :=
  if ready then awaitCall "getCustomerInsights" else []

/-- Network trace of `handleDeleteInteraction` (`src/unnamed/part_000`
lines 357-367): nothing without the `confirm` dialog. -/
def handleDeleteInteractionTrace (confirmed : Bool) : List NetEvent :=
  if confirmed then awaitCall "deleteCustomerInteraction" else []

/-- Network trace of `handleInteractionSubmit` (`src/unnamed/part_000`
lines 394-460): one awaited update or create once validation passes. -/
def handleInteractionSubmitTrace (ready validTitle validNotes isEdit : Bool) : List NetEvent :=
  if ready then
    if validTitle then
      if validNotes then
        awaitCall (if isEdit then "updateCustomerInteraction" else "createCustomerInteraction")
      else []
    else []
  else []

end CustomerDetailPage

namespace DigitalPresenceBuilder

/-- Network trace of `loadWebsiteInfo` (`DigitalPresenceBuilder.tsx`
lines 22-53): a single awaited `getWebsiteInfo` when a valid stored user
exists. -/
def loadWebsiteInfoTrace (hasUser : Bool) : List NetEvent :=
  if hasUser then awaitCall "getWebsiteInfo" else []

/-- Network trace of `handleGenerateWebsite` (`DigitalPresenceBuilder.tsx`
lines 55-85): an awaited `generateWebsiteHtml`, then, only when it succeeded
with a truthy `html_content`, the awaited refresh `loadWebsiteInfo()`. -/
def handleGenerateWebsiteTrace (hasUser genOk hasHtml : Bool) : List NetEvent :=
  if hasUser then
    awaitCall "generateWebsiteHtml" ++
      (if genOk && hasHtml then loadWebsiteInfoTrace hasUser else [])
  else []

/-- Network trace of `handlePreviewWebsite` (`DigitalPresenceBuilder.tsx`
lines 87-116). -/
def handlePreviewWebsiteTrace (hasUser : Bool) : List NetEvent :=
  if hasUser then awaitCall "previewWebsite" else []

/-- Network trace of `handleApplyTemplate` (`DigitalPresenceBuilder.tsx`
lines 118-144): an awaited `applyWebsiteTemplate`, then, when it did not
throw, the awaited refresh `loadWebsiteInfo()`. -/
def handleApplyTemplateTrace (hasUser applyOk : Bool) : List NetEvent :=
  if hasUser then
    awaitCall "applyWebsiteTemplate" ++
      (if applyOk then loadWebsiteInfoTrace hasUser else [])
  else []

end DigitalPresenceBuilder

namespace ProfilePage

/-- Network trace of `fetchProfileData` (`ProfilePage.tsx` lines 50-79): an
awaited `getProfile`, then (if it did not throw) an awaited
`getBusinessTypes`; run only when `userId` is present. -/
def fetchProfileDataTrace (hasUserId profileOk : Bool) : List NetEvent :=
  if hasUserId then
    awaitCall "getProfile" ++ (if profileOk then awaitCall "getBusinessTypes" else [])
  else []

/-- Network trace of `handleProfileImageUpload` (`ProfilePage.tsx`
lines 92-120): nothing without a selected file. -/
def handleProfileImageUploadTrace (hasFile : Bool) : List NetEvent :=
  if hasFile then awaitCall "uploadProfileImage" else []

/-- Network trace of `handleSaveProfile` (`ProfilePage.tsx` lines 123-133). -/
def handleSaveProfileTrace : List NetEvent :=
  awaitCall "updateProfile"

end ProfilePage

/-! Helper lemmas. -/

theorem prefixAt_iff (needle hay : List Char) :
    prefixAt needle hay = true ↔ ∃ post, hay = needle ++ post := by
  induction needle generalizing hay with
  | nil => simp [prefixAt]
  | cons n ns ih =>
    cases hay with
    | nil => simp [prefixAt]
    | cons h hs =>
      simp only [prefixAt, Bool.and_eq_true, decide_eq_true_eq, ih, List.cons_append,
        List.cons.injEq]
      constructor
      · rintro ⟨rfl, post, rfl⟩
        exact ⟨post, rfl, rfl⟩
      · rintro ⟨post, rfl, rfl⟩
        exact ⟨rfl, post, rfl⟩

theorem includesList_iff (hay needle : List Char) :
    includesList hay needle = true ↔ ∃ pre post, hay = pre ++ needle ++ post := by
  induction hay with
  | nil =>
    simp only [includesList, List.isEmpty_iff]
    constructor
    · rintro rfl; exact ⟨[], [], rfl⟩
    · rintro ⟨pre, post, h⟩
      rcases List.append_eq_nil.1 (List.append_eq_nil.1 h.symm).1 with ⟨-, h2⟩
      exact h2
  | cons h t ih =>
    simp only [includesList, Bool.or_eq_true, prefixAt_iff, ih]
    constructor
    · rintro (⟨post, hp⟩ | ⟨pre, post, rfl⟩)
      · exact ⟨[], post, by simpa using hp⟩
      · exact ⟨h :: pre, post, rfl⟩
    · rintro ⟨pre, post, hp⟩
      cases pre with
      | nil => exact Or.inl ⟨post, by simpa using hp⟩
      | cons p ps =>
        refine Or.inr ⟨ps, post, ?_⟩
        have := hp
        simp only [List.cons_append] at this
        exact (List.cons.injEq .. ▸ this).2

theorem includesList_of_parts (a mid b : List Char) :
    includesList (a ++ mid ++ b) mid = true :=
  (includesList_iff _ _).2 ⟨a, b, rfl⟩


theorem matchAt_sound {l m : List Char} (h : matchAt l = some m) :
    isPhonePatternMatch m = true ∧ ∃ post, l = m ++ post := by
  cases l with
  | nil => simp [matchAt] at h
  | cons c rest =>
    rw [matchAt] at h
    by_cases hc : c = '+'
    · rw [if_pos hc] at h
      simp only at h
      by_cases hlen : 10 ≤ (rest.takeWhile isClassChar).length
      · rw [if_pos hlen] at h
        cases h
        subst hc
        constructor
        · simp [isPhonePatternMatch, List.all_takeWhile, hlen]
        · exact ⟨rest.dropWhile isClassChar, by
            simp [List.takeWhile_append_dropWhile]⟩
      · rw [if_neg hlen] at h; cases h
    · rw [if_neg hc] at h
      simp only at h
      by_cases hlen : 10 ≤ ((c :: rest).takeWhile isClassChar).length
      · rw [if_pos hlen] at h
        cases h
        have hcc : isClassChar c = true := by
          by_contra hcc
          rw [List.takeWhile_cons, if_neg hcc] at hlen
          simp at hlen
        rw [List.takeWhile_cons, if_pos hcc] at hlen ⊢
        constructor
        · have hall : (c :: rest.takeWhile isClassChar).all isClassChar = true := by
            rw [List.all_cons]
            exact Bool.and_eq_true .. ▸ ⟨hcc, List.all_takeWhile⟩
          rw [isPhonePatternMatch, if_neg (by simp [hc])]
          rw [List.length_cons] at hlen
          simp [hall]
          omega
        · exact ⟨rest.dropWhile isClassChar, by
            simp [List.takeWhile_append_dropWhile]⟩
      · rw [if_neg hlen] at h; cases h

theorem takeWhile_append_of_all {p : Char → Bool} {a : List Char} (b : List Char)
    (h : a.all p = true) : (a ++ b).takeWhile p = a ++ b.takeWhile p := by
  induction a with
  | nil => simp
  | cons x xs ih =>
    rw [List.all_cons, Bool.and_eq_true] at h
    simp [List.takeWhile_cons, h.1, ih h.2]

theorem matchAt_isSome {t : List Char} (post : List Char)
    (h : isPhonePatternMatch t = true) : (matchAt (t ++ post)).isSome = true := by
  cases t with
  | nil => simp [isPhonePatternMatch] at h
  | cons c cs =>
    by_cases hc : c = '+'
    · subst hc
      simp only [isPhonePatternMatch, List.head?_cons, Option.some.injEq, if_pos,
        List.tail_cons, Bool.and_eq_true, decide_eq_true_eq, if_true] at h
      rw [List.cons_append, matchAt, if_pos rfl]
      simp only
      rw [takeWhile_append_of_all post h.1]
      have hlen : 10 ≤ (cs ++ post.takeWhile isClassChar).length :=
        le_trans h.2 (by rw [List.length_append]; exact Nat.le_add_right _ _)
      simp only [if_pos hlen, Option.isSome_some]
    · rw [isPhonePatternMatch, if_neg (by simp [hc])] at h
      rw [Bool.and_eq_true, Bool.and_eq_true, decide_eq_true_eq] at h
      obtain ⟨⟨-, hall⟩, hlen0⟩ := h
      rw [List.cons_append, matchAt, if_neg hc]
      simp only
      rw [← List.cons_append, takeWhile_append_of_all post hall]
      have hlen : 10 ≤ ((c :: cs) ++ post.takeWhile isClassChar).length :=
        le_trans hlen0 (by rw [List.length_append]; exact Nat.le_add_right _ _)
      simp only [if_pos hlen, Option.isSome_some]

theorem firstPhoneMatch_of_matchAt {l m : List Char} (h : matchAt l = some m) :
    firstPhoneMatch l = some m := by
  cases l with
  | nil => simp [matchAt] at h
  | cons c rest => rw [firstPhoneMatch, h]

theorem firstPhoneMatch_sound {l m : List Char} (h : firstPhoneMatch l = some m) :
    isPhonePatternMatch m = true ∧ ∃ pre post, l = pre ++ m ++ post := by
  induction l with
  | nil => simp [firstPhoneMatch] at h
  | cons c rest ih =>
    rw [firstPhoneMatch] at h
    cases hm : matchAt (c :: rest) with
    | some m0 =>
      rw [hm] at h
      cases h
      obtain ⟨hpat, post, hdec⟩ := matchAt_sound hm
      exact ⟨hpat, [], post, by simpa using hdec⟩
    | none =>
      rw [hm] at h
      obtain ⟨hpat, pre, post, hdec⟩ := ih h
      exact ⟨hpat, c :: pre, post, by simp [hdec]⟩

theorem firstPhoneMatch_leftmost {l pre t post : List Char}
    (hdec : l = pre ++ t ++ post) (hpat : isPhonePatternMatch t = true) :
    ∃ m pre2 post2, firstPhoneMatch l = some m ∧ l = pre2 ++ m ++ post2 ∧
      isPhonePatternMatch m = true ∧ pre2.length ≤ pre.length := by
  induction pre generalizing l with
  | nil =>
    subst hdec
    simp only [List.nil_append]
    have hsome := matchAt_isSome post hpat
    cases hm : matchAt (t ++ post) with
    | none => rw [hm] at hsome; simp at hsome
    | some m =>
      obtain ⟨hmp, post2, hdec2⟩ := matchAt_sound hm
      exact ⟨m, [], post2, firstPhoneMatch_of_matchAt hm, by simpa using hdec2, hmp,
        Nat.le_refl _⟩
  | cons c pre' ih =>
    subst hdec
    simp only [List.cons_append]
    rw [firstPhoneMatch]
    cases hm : matchAt (c :: (pre' ++ t ++ post)) with
    | some m =>
      obtain ⟨hmp, post2, hdec2⟩ := matchAt_sound hm
      exact ⟨m, [], post2, rfl, by simpa using hdec2, hmp, Nat.zero_le _⟩
    | none =>
      obtain ⟨m, pre2, post2, hfm, hdec2, hmp, hle⟩ := ih rfl
      refine ⟨m, c :: pre2, post2, hfm, by simp [hdec2], hmp, ?_⟩
      simpa using Nat.succ_le_succ hle

theorem filter_dropWhile_spaces {p : Char → Bool}
    (hp : ∀ ch, isSpaceChar ch = true → p ch = false) (l : List Char) :
    (l.dropWhile isSpaceChar).filter p = l.filter p := by
  conv_rhs => rw [← List.takeWhile_append_dropWhile isSpaceChar l]
  rw [List.filter_append]
  have hnil : (l.takeWhile isSpaceChar).filter p = [] := by
    rw [List.filter_eq_nil_iff]
    intro a ha
    have hsp := List.all_eq_true.1 (List.all_takeWhile (p := isSpaceChar) (l := l)) a ha
    simp [hp a hsp]
  rw [hnil, List.nil_append]

theorem filter_trimList {p : Char → Bool}
    (hp : ∀ ch, isSpaceChar ch = true → p ch = false) (l : List Char) :
    (trimList l).filter p = l.filter p := by
  rw [trimList, trimEnd, List.filter_reverse, filter_dropWhile_spaces hp,
    List.filter_reverse, List.reverse_reverse, filter_dropWhile_spaces hp]

theorem dropWhile_append_singleton {p : Char → Bool} {c : Char} (hc : p c = false)
    (a : List Char) : List.dropWhile p (a ++ [c]) = List.dropWhile p a ++ [c] := by
  induction a with
  | nil => simp [List.dropWhile_cons, hc]
  | cons x xs ih =>
    by_cases hx : p x = true
    · simp [List.dropWhile_cons, hx, ih]
    · simp [List.dropWhile_cons, hx]

theorem trimEnd_cons_of_notspace {c : Char} (hc : isSpaceChar c = false) (r : List Char) :
    trimEnd (c :: r) = c :: trimEnd r := by
  rw [trimEnd, trimEnd, List.reverse_cons, dropWhile_append_singleton hc,
    List.reverse_append]
  simp

theorem trimList_cons_of_notspace {c : Char} (hc : isSpaceChar c = false) (r : List Char) :
    trimList (c :: r) = c :: trimEnd r := by
  rw [trimList, List.dropWhile_cons, if_neg (by simp [hc]), trimEnd_cons_of_notspace hc]

theorem mem_trimEnd {x : Char} {l : List Char} (h : x ∈ trimEnd l) : x ∈ l := by
  rw [trimEnd, List.mem_reverse] at h
  exact List.mem_reverse.1 (List.Sublist.mem h (List.dropWhile_sublist _))

theorem mem_trimList {x : Char} {l : List Char} (h : x ∈ trimList l) : x ∈ l := by
  rw [trimList] at h
  exact List.Sublist.mem (mem_trimEnd h) (List.dropWhile_sublist _)

theorem string_toList_append (a b : String) :
    (a ++ b).toList = a.toList ++ b.toList :=
  String.data_append a b

theorem tel_not_mailto (s : String) :
    isMailtoNav (ContactAction.navigate ("tel:" ++ s)) = false := by
  simp only [isMailtoNav]
  rw [string_toList_append]
  rw [show "mailto:".toList = 'm' :: "ailto:".toList from rfl,
    show "tel:".toList = 't' :: "el:".toList from rfl]
  simp [prefixAt]

theorem isClassChar_ne_plus {c : Char} (h : isClassChar c = true) : c ≠ '+' := by
  intro he
  subst he
  exact absurd h (by decide)

theorem phonePattern_shape {m : List Char} (h : isPhonePatternMatch m = true) :
    (∃ r, m = '+' :: r ∧ r.all isClassChar = true) ∨
      (m ≠ [] ∧ m.all isClassChar = true) := by
  cases m with
  | nil => simp [isPhonePatternMatch] at h
  | cons c cs =>
    by_cases hc : c = '+'
    · subst hc
      simp only [isPhonePatternMatch, List.head?_cons, Option.some.injEq, if_pos,
        List.tail_cons, Bool.and_eq_true, decide_eq_true_eq, if_true] at h
      exact Or.inl ⟨cs, rfl, h.1⟩
    · rw [isPhonePatternMatch, if_neg (by simp [hc])] at h
      rw [Bool.and_eq_true, Bool.and_eq_true] at h
      exact Or.inr ⟨by simp, h.1.2⟩

theorem waFormatNumber_spec {m : List Char} (h : isPhonePatternMatch m = true) :
    CustomersPage.waFormatNumber (trimList m) =
      (if (trimList m).head? = some '+'
       then '+' :: (trimList m).filter Char.isDigit
       else '+' :: '9' :: '1' :: (trimList m).filter Char.isDigit) := by
  rcases phonePattern_shape h with ⟨r, rfl, hall⟩ | ⟨hne, hall⟩
  · rw [trimList_cons_of_notspace (by decide)]
    rw [CustomersPage.waFormatNumber, if_pos (by simp), if_pos (by simp)]
    rw [List.filter_cons, List.filter_cons]
    rw [if_pos (by decide), if_neg (by decide)]
    congr 1
    apply List.filter_congr
    intro x hx
    have hxc : isClassChar x = true := List.all_eq_true.1 hall x (mem_trimEnd hx)
    have hxp : ¬x = '+' := isClassChar_ne_plus hxc
    simp [hxp]
  · have hhead : ¬(trimList m).head? = some '+' := by
      intro hp
      have hmem : '+' ∈ trimList m := List.mem_of_mem_head? (by rw [hp]; rfl)
      have hxc := List.all_eq_true.1 hall _ (mem_trimList hmem)
      exact isClassChar_ne_plus hxc rfl
    rw [CustomersPage.waFormatNumber, if_neg hhead, if_neg hhead]

theorem hasPhoneMatch_false_iff (l : List Char) :
    hasPhoneMatch l = false ↔ firstPhoneMatch l = none := by
  rw [hasPhoneMatch]
  cases firstPhoneMatch l <;> simp

/-- C1: for every customer whose trimmed `contact_info` contains a substring
matching `/(\+?[\d\s-]{10,})/`, `handleCall` navigates to a `tel:` URI made of
the first (leftmost) such match with all whitespace and hyphen characters
removed: the regex match `m` found by the code is a pattern match occurring in
the trimmed contact info, no pattern match starts earlier, and the handler
navigates to `"tel:" ++ m` stripped of `[\s-]`. -/
theorem C1_handleCall_dials_first_phone_match (c : Customer) (pre t post : List Char)
    (hdec : trimList c.contact_info.toList = pre ++ t ++ post)
    (hpat : isPhonePatternMatch t = true) :
    ∃ m pre2 post2,
      firstPhoneMatch (trimList c.contact_info.toList) = some m ∧
      trimList c.contact_info.toList = pre2 ++ m ++ post2 ∧
      isPhonePatternMatch m = true ∧
      pre2.length ≤ pre.length ∧
      CustomersPage.handleCall c =
        ContactAction.navigate ("tel:" ++ String.mk (stripSpaceDash m)) := by
  obtain ⟨m, pre2, post2, hfm, hdec2, hmp, hle⟩ := firstPhoneMatch_leftmost hdec hpat
  refine ⟨m, pre2, post2, hfm, hdec2, hmp, hle, ?_⟩
  rw [CustomersPage.handleCall]
  simp only [hfm]
  rw [show stripSpaceDash (trimList m) = stripSpaceDash m from
    filter_trimList (fun ch h => by simp [h]) m]

/-- Concrete instance of `C1_handleCall_dials_first_phone_match`. -/
def c1Customer : Customer :=
  { id := 2, name := "Dana", contact_info := " 98765 43210 ", notes := none,
    last_contacted := none, user_id := 1 }

/-- Witness for C1 at a concrete customer. -/
theorem C1_witness :
    (trimList c1Customer.contact_info.toList =
        [] ++ "98765 43210".toList ++ [] ∧
      isPhonePatternMatch "98765 43210".toList = true) ∧
    (∃ m pre2 post2,
      firstPhoneMatch (trimList c1Customer.contact_info.toList) = some m ∧
      trimList c1Customer.contact_info.toList = pre2 ++ m ++ post2 ∧
      isPhonePatternMatch m = true ∧
      pre2.length ≤ ([] : List Char).length ∧
      CustomersPage.handleCall c1Customer =
        ContactAction.navigate ("tel:" ++ String.mk (stripSpaceDash m))) :=
  ⟨⟨by decide, by decide⟩,
    C1_handleCall_dials_first_phone_match c1Customer [] "98765 43210".toList []
      (by decide) (by decide)⟩

/-- C2: for every customer whose trimmed `contact_info` has no phone-pattern
match, `handleSMS` and `handleWhatsApp` only show an alert (opening no URI);
the absence of a match means no substring of the trimmed contact info matches
the pattern; and when additionally no `'@'` occurs, `handleCall` copies the
trimmed contact info to the clipboard and alerts, without navigating
anywhere. -/
theorem C2_fallbacks_without_phone (c : Customer)
    (h : hasPhoneMatch (trimList c.contact_info.toList) = false) :
    CustomersPage.handleSMS c = ContactAction.alertOnly "Invalid phone number for SMS" ∧
    CustomersPage.handleWhatsApp c =
      ContactAction.alertOnly "Invalid phone number for WhatsApp" ∧
    (¬∃ pre t post, trimList c.contact_info.toList = pre ++ t ++ post ∧
      isPhonePatternMatch t = true) ∧
    ('@' ∉ trimList c.contact_info.toList →
      CustomersPage.handleCall c =
        ContactAction.clipboardAlert (String.mk (trimList c.contact_info.toList))
          "Contact copied to clipboard") := by
  rw [hasPhoneMatch_false_iff] at h
  refine ⟨?_, ?_, ?_, ?_⟩
  · rw [CustomersPage.handleSMS]
    simp only [h]
  · rw [CustomersPage.handleWhatsApp]
    simp only [h]
  · rintro ⟨pre, t, post, hdec, hpat⟩
    obtain ⟨m, -, -, hfm, -⟩ := firstPhoneMatch_leftmost hdec hpat
    rw [h] at hfm
    cases hfm
  · intro hat
    rw [CustomersPage.handleCall]
    simp only [h]
    rw [if_neg ?_]
    intro hc
    exact hat (List.elem_iff.1 hc)

/-- Concrete instance of `C2_fallbacks_without_phone`. -/
def c2Customer : Customer :=
  { id := 4, name := "Finn", contact_info := "drop by the shop", notes := none,
    last_contacted := none, user_id := 1 }

/-- Witness for C2 at a concrete customer. -/
theorem C2_witness :
    hasPhoneMatch (trimList c2Customer.contact_info.toList) = false ∧
    CustomersPage.handleSMS c2Customer =
      ContactAction.alertOnly "Invalid phone number for SMS" ∧
    CustomersPage.handleWhatsApp c2Customer =
      ContactAction.alertOnly "Invalid phone number for WhatsApp" ∧
    CustomersPage.handleCall c2Customer =
      ContactAction.clipboardAlert (String.mk (trimList c2Customer.contact_info.toList))
        "Contact copied to clipboard" := by
  have h := C2_fallbacks_without_phone c2Customer (by decide)
  exact ⟨by decide, h.1, h.2.1, h.2.2.2 (by decide)⟩

/-- C3: client-side customer filtering is exactly lowercase substring search:
membership in `filteredCustomers` is equivalent to membership in the fetched
list together with the lowercased search term occurring as a contiguous
substring of the lowercased name or contact info; the filtered list is a
sublist of (hence preserves the order of) the original, and occurrence counts
are preserved for matching customers and zero otherwise. -/
theorem C3_filteredCustomers_substring_search (customers : List Customer)
    (searchTerm : String) :
    (∀ c : Customer,
      c ∈ CustomersPage.filteredCustomers customers searchTerm ↔
        c ∈ customers ∧
          ((∃ pre post, (CustomersPage.toLowerStr c.name).toList =
              pre ++ (CustomersPage.toLowerStr searchTerm).toList ++ post) ∨
           (∃ pre post, (CustomersPage.toLowerStr c.contact_info).toList =
              pre ++ (CustomersPage.toLowerStr searchTerm).toList ++ post))) ∧
    (CustomersPage.filteredCustomers customers searchTerm).Sublist customers ∧
    (∀ c : Customer,
      List.count c (CustomersPage.filteredCustomers customers searchTerm) =
        if CustomersPage.matchesSearch searchTerm c then List.count c customers else 0) := by
  refine ⟨?_, List.filter_sublist _, ?_⟩
  · intro c
    rw [CustomersPage.filteredCustomers, List.mem_filter]
    rw [CustomersPage.matchesSearch, Bool.or_eq_true, includesList_iff, includesList_iff]
  · intro c
    by_cases hm : CustomersPage.matchesSearch searchTerm c = true
    · rw [if_pos hm, CustomersPage.filteredCustomers, List.count_filter hm]
    · rw [if_neg hm, CustomersPage.filteredCustomers, List.count_eq_zero]
      intro hc
      exact hm (List.mem_filter.1 hc).2

/-- C4: `handleAddCustomer` issues a `createCustomer` request only when both
the name and contact-info fields are non-empty; when either is empty, no
request is made, the error message 'Name and contact info are required' is
set, and the customer list is unchanged. -/
theorem C4_handleAddCustomer_requires_fields (userId : String)
    (form : CustomersPage.NewCustomerForm) (customers : List Customer)
    (api : Except String Customer) :
    ((form.name = "" ∨ form.contact_info = "") →
      (CustomersPage.handleAddCustomer userId form customers api).request = none ∧
      (CustomersPage.handleAddCustomer userId form customers api).error =
        "Name and contact info are required" ∧
      (CustomersPage.handleAddCustomer userId form customers api).customers = customers) ∧
    ((CustomersPage.handleAddCustomer userId form customers api).request ≠ none ↔
      form.name ≠ "" ∧ form.contact_info ≠ "") := by
  by_cases hempty : form.name = "" ∨ form.contact_info = ""
  · have hcond : (form.name = "" || form.contact_info = "") = true := by
      rcases hempty with h | h <;> simp [h]
    rw [CustomersPage.handleAddCustomer]
    rw [if_pos hcond]
    refine ⟨fun _ => ⟨rfl, rfl, rfl⟩, ?_⟩
    simp only [ne_eq, not_true_eq_false, false_iff, not_and, not_not]
    intro h1
    rcases hempty with h | h
    · exact absurd h h1
    · exact h
  · have h1 : ¬form.name = "" := fun h => hempty (Or.inl h)
    have h2 : ¬form.contact_info = "" := fun h => hempty (Or.inr h)
    have hcond : ¬(form.name = "" || form.contact_info = "") = true := by
      simp [h1, h2]
    rw [CustomersPage.handleAddCustomer]
    rw [if_neg hcond]
    refine ⟨fun h => absurd h hempty, ?_⟩
    cases api <;> simp [h1, h2]

/-- Witness for C4 at a concrete empty-name form. -/
theorem C4_witness :
    (({ name := "", contact_info := "9999999999", notes := "" } :
        CustomersPage.NewCustomerForm).name = "" ∨
      ({ name := "", contact_info := "9999999999", notes := "" } :
        CustomersPage.NewCustomerForm).contact_info = "") ∧
    (CustomersPage.handleAddCustomer "5"
        { name := "", contact_info := "9999999999", notes := "" } []
        (Except.error "network down")).request = none ∧
    (CustomersPage.handleAddCustomer "5"
        { name := "", contact_info := "9999999999", notes := "" } []
        (Except.error "network down")).error = "Name and contact info are required" ∧
    (CustomersPage.handleAddCustomer "5"
        { name := "", contact_info := "9999999999", notes := "" } []
        (Except.error "network down")).customers = [] := by
  have h := (C4_handleAddCustomer_requires_fields "5"
    { name := "", contact_info := "9999999999", notes := "" } []
    (Except.error "network down")).1 (Or.inl rfl)
  exact ⟨Or.inl rfl, h.1, h.2.1, h.2.2⟩

/-- The per-call contract of C5: exactly one fetch was issued, and on a
non-2xx response the method throws an `Error` whose message contains the
decimal status code as a substring. -/
def oneFetchNoRetry (o : MethodOutcome) (resp : HttpResponse) : Prop :=
  o.requests.length = 1 ∧
    (resp.ok = false →
      ∃ msg, o.result = Except.error msg ∧
        includesList msg.toList (Nat.repr resp.status).toList = true)

theorem apiFetch_spec (req : Request) (failMsg : String) (resp : HttpResponse) :
    oneFetchNoRetry (apiFetch req failMsg resp) resp := by
  constructor
  · rfl
  · intro hok
    refine ⟨errorMessage failMsg resp, ?_, ?_⟩
    · simp [apiFetch, hok]
    · have key := includesList_of_parts (failMsg ++ ": ").toList
        (Nat.repr resp.status).toList
        (" " ++ resp.statusText ++ " - " ++ resp.body).toList
      have heq : (failMsg ++ ": ").toList ++ (Nat.repr resp.status).toList ++
          (" " ++ resp.statusText ++ " - " ++ resp.body).toList =
          (errorMessage failMsg resp).toList := by
        rw [errorMessage]
        simp only [string_toList_append, List.append_assoc]
      rw [heq] at key
      exact key

/-- C5: every `ApiService` method, on every input and every HTTP response,
issues exactly one fetch (no retry), and throws an `Error` whose message
contains the response status whenever `response.ok` is false. -/
theorem C5_api_one_fetch_throws_on_error (resp : HttpResponse) :
    (∀ d, oneFetchNoRetry (ApiService.login d resp) resp) ∧
    (∀ cid, oneFetchNoRetry (ApiService.getCustomerInteractions cid resp) resp) ∧
    (∀ cid uid, oneFetchNoRetry (ApiService.getCustomerDetailedInteractions cid uid resp) resp) ∧
    (∀ d, oneFetchNoRetry (ApiService.createCustomerInteraction d resp) resp) ∧
    (∀ iid d, oneFetchNoRetry (ApiService.updateCustomerInteraction iid d resp) resp) ∧
    (∀ iid, oneFetchNoRetry (ApiService.deleteCustomerInteraction iid resp) resp) ∧
    (∀ uid days, oneFetchNoRetry (ApiService.getUpcomingFollowups uid days resp) resp) ∧
    (∀ cid, oneFetchNoRetry (ApiService.getCustomer cid resp) resp) ∧
    (∀ cid d, oneFetchNoRetry (ApiService.contactCustomer cid d resp) resp) ∧
    (∀ uid, oneFetchNoRetry (ApiService.getReferralLink uid resp) resp) ∧
    (∀ d, oneFetchNoRetry (ApiService.signup d resp) resp) ∧
    (∀ uid, oneFetchNoRetry (ApiService.getProfile uid resp) resp) ∧
    (∀ uid d, oneFetchNoRetry (ApiService.updateProfile uid d resp) resp) ∧
    (∀ uid d, oneFetchNoRetry (ApiService.uploadProfileImage uid d resp) resp) ∧
    oneFetchNoRetry (ApiService.getBusinessTypes resp) resp ∧
    (∀ d, oneFetchNoRetry (ApiService.createCustomer d resp) resp) ∧
    (∀ uid, oneFetchNoRetry (ApiService.getCustomers uid resp) resp) ∧
    (∀ uid q, oneFetchNoRetry (ApiService.searchCustomers uid q resp) resp) ∧
    (∀ uid, oneFetchNoRetry (ApiService.getReferrals uid resp) resp) ∧
    (∀ uid, oneFetchNoRetry (ApiService.getReferralStats uid resp) resp) ∧
    (∀ uid, oneFetchNoRetry (ApiService.getRewards uid resp) resp) ∧
    (∀ uid, oneFetchNoRetry (ApiService.getDashboardMetrics uid resp) resp) ∧
    (∀ uid, oneFetchNoRetry (ApiService.getReports uid resp) resp) ∧
    (∀ d, oneFetchNoRetry (ApiService.sendMessage d resp) resp) ∧
    oneFetchNoRetry (ApiService.getMessageTemplates resp) resp ∧
    (∀ cid uid, oneFetchNoRetry (ApiService.getConversation cid uid resp) resp) ∧
    (∀ p ctx, oneFetchNoRetry (ApiService.getAIAssist p ctx resp) resp) ∧
    (∀ cid uid mt, oneFetchNoRetry (ApiService.generatePersonalizedMessage cid uid mt resp) resp) ∧
    (∀ cid uid, oneFetchNoRetry (ApiService.getCustomerInsights cid uid resp) resp) ∧
    (∀ uid rs, oneFetchNoRetry (ApiService.setupAutoResponses uid rs resp) resp) ∧
    (∀ d, oneFetchNoRetry (ApiService.generateMarketingContent d resp) resp) ∧
    (∀ p, oneFetchNoRetry (ApiService.generateAIImage p resp) resp) ∧
    (∀ uid, oneFetchNoRetry (ApiService.getWebsiteInfo uid resp) resp) ∧
    oneFetchNoRetry (ApiService.getWebsiteTemplates resp) resp ∧
    (∀ uid tid, oneFetchNoRetry (ApiService.applyWebsiteTemplate uid tid resp) resp) ∧
    (∀ uid tid, oneFetchNoRetry (ApiService.generateWebsiteHtml uid tid resp) resp) ∧
    (∀ uid tid, oneFetchNoRetry (ApiService.previewWebsite uid tid resp) resp) ∧
    (∀ uid, oneFetchNoRetry (ApiService.getSocialProfiles uid resp) resp) ∧
    (∀ uid, oneFetchNoRetry (ApiService.getDigitalPresenceAnalytics uid resp) resp) :=
  ⟨fun _ => apiFetch_spec _ _ _, fun _ => apiFetch_spec _ _ _,
    fun _ _ => apiFetch_spec _ _ _, fun _ => apiFetch_spec _ _ _,
    fun _ _ => apiFetch_spec _ _ _, fun _ => apiFetch_spec _ _ _,
    fun _ _ => apiFetch_spec _ _ _, fun _ => apiFetch_spec _ _ _,
    fun _ _ => apiFetch_spec _ _ _, fun _ => apiFetch_spec _ _ _,
    fun _ => apiFetch_spec _ _ _, fun _ => apiFetch_spec _ _ _,
    fun _ _ => apiFetch_spec _ _ _, fun _ _ => apiFetch_spec _ _ _,
    apiFetch_spec _ _ _, fun _ => apiFetch_spec _ _ _,
    fun _ => apiFetch_spec _ _ _, fun _ _ => apiFetch_spec _ _ _,
    fun _ => apiFetch_spec _ _ _, fun _ => apiFetch_spec _ _ _,
    fun _ => apiFetch_spec _ _ _, fun _ => apiFetch_spec _ _ _,
    fun _ => apiFetch_spec _ _ _, fun _ => apiFetch_spec _ _ _,
    apiFetch_spec _ _ _, fun _ _ => apiFetch_spec _ _ _,
    fun _ _ => apiFetch_spec _ _ _, fun _ _ _ => apiFetch_spec _ _ _,
    fun _ _ => apiFetch_spec _ _ _, fun _ _ => apiFetch_spec _ _ _,
    fun _ => apiFetch_spec _ _ _, fun _ => apiFetch_spec _ _ _,
    fun _ => apiFetch_spec _ _ _, apiFetch_spec _ _ _,
    fun _ _ => apiFetch_spec _ _ _, fun _ _ => apiFetch_spec _ _ _,
    fun _ _ => apiFetch_spec _ _ _, fun _ => apiFetch_spec _ _ _,
    fun _ => apiFetch_spec _ _ _⟩

/-- Witness for C5: `login` on a concrete 404 response issues one fetch and
throws with the status in the message. -/
theorem C5_witness :
    (ApiService.login { user_id := "u", password := "p" }
        { status := 404, statusText := "Not Found", body := "missing" }).requests.length = 1 ∧
    (({ status := 404, statusText := "Not Found", body := "missing" } : HttpResponse).ok = false) ∧
    (∃ msg,
      (ApiService.login { user_id := "u", password := "p" }
          { status := 404, statusText := "Not Found", body := "missing" }).result =
        Except.error msg ∧
      includesList msg.toList (Nat.repr 404).toList = true) := by
  have h := (C5_api_one_fetch_throws_on_error
    { status := 404, statusText := "Not Found", body := "missing" }).1
    { user_id := "u", password := "p" }
  exact ⟨h.1, by decide, h.2 (by decide)⟩

/-- C6: every request-issuing event handler in the codebase awaits each API
call before issuing the next: along every handler trace, under every branch
condition, no prefix ever has more than one outstanding network request. -/
theorem C6_handlers_sequential_requests :
    (∀ hasUserId, seqTraceOk (CustomersPage.fetchCustomersTrace hasUserId) = true) ∧
    seqTraceOk CustomersPage.openDetailsTrace = true ∧
    seqTraceOk CustomersPage.handleActivateAITrace = true ∧
    (∀ fieldsPresent, seqTraceOk (CustomersPage.handleAddCustomerTrace fieldsPresent) = true) ∧
    (∀ hasIds customerOk interactionsOk,
      seqTraceOk (CustomerDetailPage.fetchDataTrace hasIds customerOk interactionsOk) = true) ∧
    (∀ ready, seqTraceOk (CustomerDetailPage.fetchAIInsightsTrace ready) = true) ∧
    (∀ confirmed,
      seqTraceOk (CustomerDetailPage.handleDeleteInteractionTrace confirmed) = true) ∧
    (∀ ready validTitle validNotes isEdit,
      seqTraceOk (CustomerDetailPage.handleInteractionSubmitTrace
        ready validTitle validNotes isEdit) = true) ∧
    (∀ hasUser, seqTraceOk (DigitalPresenceBuilder.loadWebsiteInfoTrace hasUser) = true) ∧
    (∀ hasUser genOk hasHtml,
      seqTraceOk (DigitalPresenceBuilder.handleGenerateWebsiteTrace hasUser genOk hasHtml) = true) ∧
    (∀ hasUser, seqTraceOk (DigitalPresenceBuilder.handlePreviewWebsiteTrace hasUser) = true) ∧
    (∀ hasUser applyOk,
      seqTraceOk (DigitalPresenceBuilder.handleApplyTemplateTrace hasUser applyOk) = true) ∧
    (∀ hasUserId profileOk,
      seqTraceOk (ProfilePage.fetchProfileDataTrace hasUserId profileOk) = true) ∧
    (∀ hasFile, seqTraceOk (ProfilePage.handleProfileImageUploadTrace hasFile) = true) ∧
    seqTraceOk ProfilePage.handleSaveProfileTrace = true := by
  decide

/-- Counterexample for C7 as stated: on a successful preview whose body is the
empty string, `previewWebsite` returns `""` but `handlePreviewWebsite` writes
nothing into the preview window (the `if (html)` truthiness guard skips the
empty string), so it does not write "exactly that string". -/
theorem C7_counterexample :
    (ApiService.previewWebsite 1 "professional"
        { status := 200, statusText := "OK", body := "" }).result = Except.ok "" ∧
    (DigitalPresenceBuilder.handlePreviewWebsite (some { id := 1 }) "professional"
        { status := 200, statusText := "OK", body := "" } true).written ≠ some "" :=
  ⟨rfl, by decide⟩

/-- C7 (amended): `previewWebsite` returns the HTTP response body verbatim on
every 2xx response; whatever `handlePreviewWebsite` writes into the preview
window is exactly the response body, unchanged; and for every non-empty body
(with a valid stored user and an un-blocked popup) it does write exactly that
body. -/
theorem C7_preview_verbatim (u : StoredUser) (template_id : String)
    (resp : HttpResponse) (windowOpens : Bool) :
    (resp.ok = true →
      (ApiService.previewWebsite u.id template_id resp).result = Except.ok resp.body) ∧
    (∀ s, (DigitalPresenceBuilder.handlePreviewWebsite (some u) template_id resp
        windowOpens).written = some s → resp.ok = true ∧ s = resp.body) ∧
    (u.id ≠ 0 → resp.ok = true → resp.body ≠ "" → windowOpens = true →
      (DigitalPresenceBuilder.handlePreviewWebsite (some u) template_id resp
        windowOpens).written = some resp.body) := by
  refine ⟨?_, ?_, ?_⟩
  · intro hok
    simp [ApiService.previewWebsite, apiFetch, hok]
  · intro s hs
    rw [DigitalPresenceBuilder.handlePreviewWebsite] at hs
    by_cases hz : u.id = 0
    · rw [if_pos hz] at hs
      cases hs
    · rw [if_neg hz] at hs
      by_cases hok : resp.ok = true
      · rw [show (ApiService.previewWebsite u.id template_id resp).result =
            Except.ok resp.body by simp [ApiService.previewWebsite, apiFetch, hok]] at hs
        simp only at hs
        by_cases hb : resp.body = ""
        · rw [if_pos hb] at hs
          cases hs
        · rw [if_neg hb] at hs
          cases windowOpens with
          | false => rw [if_neg (by simp)] at hs; cases hs
          | true =>
            rw [if_pos rfl] at hs
            cases hs
            exact ⟨hok, rfl⟩
      · rw [show (ApiService.previewWebsite u.id template_id resp).result =
            Except.error (errorMessage "Failed to fetch website preview" resp) by
              simp [ApiService.previewWebsite, apiFetch, hok]] at hs
        simp only at hs
        cases hs
  · intro hz hok hb hw
    subst hw
    rw [DigitalPresenceBuilder.handlePreviewWebsite]
    rw [if_neg hz]
    rw [show (ApiService.previewWebsite u.id template_id resp).result =
        Except.ok resp.body by simp [ApiService.previewWebsite, apiFetch, hok]]
    simp only
    rw [if_neg hb]
    simp

/-- Witness for C7 at a concrete user, response and open popup. -/
theorem C7_witness :
    (({ id := 1 } : StoredUser).id ≠ 0 ∧
      ({ status := 200, statusText := "OK", body := "<html>hi</html>" } : HttpResponse).ok = true ∧
      ("<html>hi</html>" : String) ≠ "") ∧
    (ApiService.previewWebsite 1 "professional"
        { status := 200, statusText := "OK", body := "<html>hi</html>" }).result =
      Except.ok "<html>hi</html>" ∧
    (DigitalPresenceBuilder.handlePreviewWebsite (some { id := 1 }) "professional"
        { status := 200, statusText := "OK", body := "<html>hi</html>" } true).written =
      some "<html>hi</html>" := by
  have h := C7_preview_verbatim { id := 1 } "professional"
    { status := 200, statusText := "OK", body := "<html>hi</html>" } true
  exact ⟨⟨by decide, by decide, by decide⟩, h.1 (by decide),
    h.2.2 (by decide) (by decide) (by decide) rfl⟩

/-- C8: whenever a phone number is extracted, `handleWhatsApp` opens a
`wa.me` link built from the trimmed match reduced to its digits, keeping a
leading `'+'` when present and otherwise unconditionally prefixing `"+91"`. -/
theorem C8_whatsapp_plus91_default (c : Customer) (m : List Char)
    (hm : firstPhoneMatch (trimList c.contact_info.toList) = some m) :
    CustomersPage.handleWhatsApp c =
      ContactAction.openWindow ("https://wa.me/" ++
        String.mk (CustomersPage.waFormatNumber (trimList m)) ++ "?text=" ++
        encodeURIComponent ("Hello " ++ c.name ++
          "! I\x27m reaching out to discuss how we can help with your needs. Would you have some time to chat?")) ∧
    CustomersPage.waFormatNumber (trimList m) =
      (if (trimList m).head? = some '+'
       then '+' :: (trimList m).filter Char.isDigit
       else '+' :: '9' :: '1' :: (trimList m).filter Char.isDigit) := by
  constructor
  · rw [CustomersPage.handleWhatsApp]
    simp only [hm]
  · exact waFormatNumber_spec (firstPhoneMatch_sound hm).1

/-- Concrete instance of `C8_whatsapp_plus91_default`. -/
def c8Customer : Customer :=
  { id := 5, name := "Gail", contact_info := "+91 98765-43210", notes := none,
    last_contacted := none, user_id := 1 }

/-- Witness for C8 at a concrete customer. -/
theorem C8_witness :
    firstPhoneMatch (trimList c8Customer.contact_info.toList) =
      some "+91 98765-43210".toList ∧
    CustomersPage.handleWhatsApp c8Customer =
      ContactAction.openWindow ("https://wa.me/" ++
        String.mk (CustomersPage.waFormatNumber (trimList "+91 98765-43210".toList)) ++
        "?text=" ++
        encodeURIComponent ("Hello " ++ c8Customer.name ++
          "! I\x27m reaching out to discuss how we can help with your needs. Would you have some time to chat?")) ∧
    CustomersPage.waFormatNumber (trimList "+91 98765-43210".toList) =
      (if (trimList "+91 98765-43210".toList).head? = some '+'
       then '+' :: (trimList "+91 98765-43210".toList).filter Char.isDigit
       else '+' :: '9' :: '1' :: (trimList "+91 98765-43210".toList).filter Char.isDigit) := by
  have h := C8_whatsapp_plus91_default c8Customer "+91 98765-43210".toList (by decide)
  exact ⟨by decide, h.1, h.2⟩

/-- C9: phone dispatch takes precedence over email in `handleCall`: with a
phone match present (in particular when an `'@'` is also present), the
handler navigates to the `tel:` URI and never to `mailto:`; conversely a
`mailto:` navigation can only arise when no phone-pattern match exists. -/
theorem C9_phone_over_email :
    (∀ (c : Customer) (m : List Char),
      firstPhoneMatch (trimList c.contact_info.toList) = some m →
      '@' ∈ trimList c.contact_info.toList →
      CustomersPage.handleCall c =
        ContactAction.navigate ("tel:" ++ String.mk (stripSpaceDash (trimList m))) ∧
      isMailtoNav (CustomersPage.handleCall c) = false) ∧
    (∀ c : Customer, isMailtoNav (CustomersPage.handleCall c) = true →
      firstPhoneMatch (trimList c.contact_info.toList) = none) := by
  have hmain : ∀ (c : Customer) (m : List Char),
      firstPhoneMatch (trimList c.contact_info.toList) = some m →
      CustomersPage.handleCall c =
        ContactAction.navigate ("tel:" ++ String.mk (stripSpaceDash (trimList m))) := by
    intro c m hm
    rw [CustomersPage.handleCall]
    simp only [hm]
  constructor
  · intro c m hm _
    refine ⟨hmain c m hm, ?_⟩
    rw [hmain c m hm]
    exact tel_not_mailto _
  · intro c hmail
    cases hf : firstPhoneMatch (trimList c.contact_info.toList) with
    | none => rfl
    | some m =>
      rw [hmain c m hf, tel_not_mailto] at hmail
      cases hmail

/-- Concrete instance with both an email and a phone number. -/
def c9Customer : Customer :=
  { id := 3, name := "Eve", contact_info := "eve@mail.com 0123-456-789", notes := none,
    last_contacted := none, user_id := 1 }

/-- Concrete instance with only an email. -/
def c9MailCustomer : Customer :=
  { id := 6, name := "Hana", contact_info := "hana@mail.com", notes := none,
    last_contacted := none, user_id := 1 }

/-- Witness for C9 at concrete customers. -/
theorem C9_witness :
    (firstPhoneMatch (trimList c9Customer.contact_info.toList) =
        some " 0123-456-789".toList ∧
      '@' ∈ trimList c9Customer.contact_info.toList) ∧
    CustomersPage.handleCall c9Customer =
      ContactAction.navigate
        ("tel:" ++ String.mk (stripSpaceDash (trimList " 0123-456-789".toList))) ∧
    isMailtoNav (CustomersPage.handleCall c9Customer) = false ∧
    (isMailtoNav (CustomersPage.handleCall c9MailCustomer) = true ∧
      firstPhoneMatch (trimList c9MailCustomer.contact_info.toList) = none) := by
  have h := C9_phone_over_email.1 c9Customer " 0123-456-789".toList (by decide) (by decide)
  exact ⟨⟨by decide, by decide⟩, h.1, h.2,
    by decide, C9_phone_over_email.2 c9MailCustomer (by decide)⟩

/-- Concrete instance for C10: ten hyphens, no digit at all. -/
def c10Customer : Customer :=
  { id := 1, name := "Alex", contact_info := "----------", notes := none,
    last_contacted := none, user_id := 1 }

set_option maxRecDepth 8192 in
/-- C10: a contact info of ten hyphens contains no digit yet is accepted by
the phone pattern, so `handleCall`, `handleSMS` and `handleWhatsApp` all emit
a `tel:`/`sms:`/`wa.me` URI (the digit-stripped number being empty, and
WhatsApp receiving the bare `"+91"`) instead of taking their fallback
branches. -/
theorem C10_all_hyphens_accepted :
    c10Customer.contact_info.toList.all (fun ch => !ch.isDigit) = true ∧
    isPhonePatternMatch c10Customer.contact_info.toList = true ∧
    hasPhoneMatch (trimList c10Customer.contact_info.toList) = true ∧
    CustomersPage.handleCall c10Customer = ContactAction.navigate "tel:" ∧
    CustomersPage.handleSMS c10Customer =
      ContactAction.openWindow ("sms:?body=" ++
        encodeURIComponent "Hi Alex, this is a follow-up regarding our previous conversation. Please let me know a good time to connect. Thanks!") ∧
    CustomersPage.handleWhatsApp c10Customer =
      ContactAction.openWindow ("https://wa.me/+91?text=" ++
        encodeURIComponent "Hello Alex! I\x27m reaching out to discuss how we can help with your needs. Would you have some time to chat?") := by
  decide
